import Mathlib

/-
  Verification development for the bastion provisioning library
  (package `aws`: security_group_rule.go, nacl_rule.go, instance.go).

  The Go code is shallowly embedded as follows:
  * AWS SDK response structs are Lean structures; SDK pointer fields
    (`*string`, `*int64`, `*bool`, nested structs) become `Option` fields,
    and dereferencing a `nil` pointer — as well as an explicit Go
    `panic(...)` — is modelled by `GoResult.panicked`.
  * The EC2 connection is modelled as a record of canned responses, one
    per API operation (exactly the shape of the repository's own test
    doubles built on `conn.Handlers`).  Every embedded function returns,
    alongside its Go return values, the list of API calls it issued, so
    that "no mutation call was made" is a provable statement.
  * Go's multiple return values `(x, err)` become pairs `x × Option String`.
-/

namespace Bastion

/-- Outcome of a Go function call: a normal return, or a runtime panic
(an explicit `panic(...)` in the source or a nil-pointer dereference). -/
inductive GoResult (α : Type) where
  | ok : α → GoResult α
  | panicked : GoResult α
  deriving Repr, DecidableEq

/-- One request issued to the EC2 API, with the request fields the source
code fills in (the fixed `IpProtocol`/`Protocol`/`RuleAction` strings
included). -/
inductive ApiCall where
  | describeSecurityGroups (group : String)
  | authorizeSecurityGroupEgress (group cidr protocol : String) (fromPort toPort : Int)
  | authorizeSecurityGroupIngress (group cidr protocol : String) (fromPort toPort : Int)
  | revokeSecurityGroupEgress (group cidr protocol : String) (fromPort toPort : Int)
  | revokeSecurityGroupIngress (group cidr protocol : String) (fromPort toPort : Int)
  | describeNetworkAcls (acl : String)
  | createNetworkAclEntry (acl cidr : String) (egress : Bool)
      (protocol ruleAction : String) (fromPort toPort ruleNumber : Int)
  | deleteNetworkAclEntry (acl : String) (egress : Bool) (ruleNumber : Int)
  deriving Repr, DecidableEq

/-! ## Security groups: data model (ec2 SDK shapes and the repo's rule struct) -/

/-- ec2.IpRange; `CidrIp` is a `*string` in the SDK. -/
structure IpRange where
  cidrIp : Option String
  deriving Repr, DecidableEq

/-- ec2.IpPermission; `FromPort`/`ToPort` are `*int64`, `IpProtocol` a
`*string`.  Only the fields the embedded code reads are carried. -/
structure IpPermission where
  fromPort : Option Int
  toPort : Option Int
  ipProtocol : Option String
  ipRanges : List IpRange
  deriving Repr, DecidableEq

/-- ec2.SecurityGroup, restricted to the fields the code reads. -/
structure SecurityGroup where
  ipPermissions : List IpPermission
  ipPermissionsEgress : List IpPermission
  deriving Repr, DecidableEq

/-- Canned EC2 responses for the security-group rule operations: the
describe response, and the error result (none = success) of each
mutation endpoint. -/
structure Ec2SgConn where
  describeSecurityGroups : Except String (List SecurityGroup)
  authorizeEgressResult : Option String
  authorizeIngressResult : Option String
  revokeEgressResult : Option String
  revokeIngressResult : Option String

/-- SecurityGroupRule struct from security_group_rule.go (json field
names kept as Lean field names, lower-camel-cased). -/
structure SecurityGroupRule where
  cidrBlock : String
  created : Bool
  egress : Bool
  groupID : String
  startPort : Int
  endPort : Int
  preExisting : Bool
  deriving Repr, DecidableEq

/-! ## Security groups: operations -/

/-- Inner loop of FindPreExistingSecurityGroupRule
(security_group_rule.go:67-73), iterating one permission's `IpRanges`.
The Go condition `*x.CidrIp == cidr && int(*v.FromPort) == start &&
int(*v.ToPort) == end` short-circuits, so the port pointers are only
dereferenced when the CIDR matched. -/
def sgRangeLoop (cidr : String) (startPort endPort : Int)
    (fp tp : Option Int) : List IpRange → GoResult Bool
  | [] => .ok false
  | x :: rest =>
    match x.cidrIp with
    | none => .panicked
    | some c =>
      if c = cidr then
        match fp with
        | none => .panicked
        | some f =>
          if f = startPort then
            match tp with
            | none => .panicked
            | some t =>
              if t = endPort then .ok true
              else sgRangeLoop cidr startPort endPort fp tp rest
          else sgRangeLoop cidr startPort endPort fp tp rest
      else sgRangeLoop cidr startPort endPort fp tp rest

/-- Outer loop of FindPreExistingSecurityGroupRule over the direction's
permission list; returns on the first matching range. -/
def sgPermLoop (cidr : String) (startPort endPort : Int) :
    List IpPermission → GoResult Bool
  | [] => .ok false
  | v :: rest =>
    match sgRangeLoop cidr startPort endPort v.fromPort v.toPort v.ipRanges with
    | .panicked => .panicked
    | .ok true => .ok true
    | .ok false => sgPermLoop cidr startPort endPort rest

/-- FindPreExistingSecurityGroupRule (security_group_rule.go:42-76).
Returns the issued API calls and the Go result `(bool, error)`.
Zero groups for the ID is a returned error, more than one is a panic. -/
def FindPreExistingSecurityGroupRule (conn : Ec2SgConn) (group cidr : String)
    (startPort endPort : Int) (egress : Bool) :
    List ApiCall × GoResult (Bool × Option String) :=
  let calls := [ApiCall.describeSecurityGroups group]
  match conn.describeSecurityGroups with
  | .error e => (calls, .ok (false, some e))
  | .ok gs =>
    match gs with
    | [] => (calls, .ok (false, some ("Security group " ++ group ++ " not found.")))
    | [g] =>
      let rules := if egress then g.ipPermissionsEgress else g.ipPermissions
      match sgPermLoop cidr startPort endPort rules with
      | .panicked => (calls, .panicked)
      | .ok b => (calls, .ok (b, none))
    | _ :: _ :: _ => (calls, .panicked)

/-- CreateSecurityGroupRule (security_group_rule.go:86-134): check for a
pre-existing rule first; if found, return it flagged pre-existing with no
mutation; otherwise authorize a tcp rule in the requested direction. -/
def CreateSecurityGroupRule (conn : Ec2SgConn) (group cidr : String)
    (startPort endPort : Int) (egress : Bool) :
    List ApiCall × GoResult (SecurityGroupRule × Option String) :=
  let rule : SecurityGroupRule :=
    { cidrBlock := cidr, created := false, egress := egress, groupID := group,
      startPort := startPort, endPort := endPort, preExisting := false }
  match FindPreExistingSecurityGroupRule conn group cidr startPort endPort egress with
  | (calls, .panicked) => (calls, .panicked)
  | (calls, .ok (found, err)) =>
    match err with
    | some e => (calls, .ok (rule, some e))
    | none =>
      if found then
        (calls, .ok ({ rule with preExisting := true, created := true }, none))
      else
        if egress then
          let calls2 := calls ++
            [ApiCall.authorizeSecurityGroupEgress group cidr "tcp" startPort endPort]
          match conn.authorizeEgressResult with
          | some e => (calls2, .ok (rule, some e))
          | none => (calls2, .ok ({ rule with created := true }, none))
        else
          let calls2 := calls ++
            [ApiCall.authorizeSecurityGroupIngress group cidr "tcp" startPort endPort]
          match conn.authorizeIngressResult with
          | some e => (calls2, .ok (rule, some e))
          | none => (calls2, .ok ({ rule with created := true }, none))

/-- runSecurityGroupRuleDelete (security_group_rule.go:138-172): nothing
is done for a pre-existing rule; otherwise the direction's revoke call is
issued.  (The source's final `rule.Created = false` writes to the local
copy of a by-value argument and has no observable effect.) -/
def runSecurityGroupRuleDelete (conn : Ec2SgConn) (rule : SecurityGroupRule) :
    List ApiCall × Option String :=
  if rule.preExisting then ([], none)
  else
    if rule.egress then
      ([ApiCall.revokeSecurityGroupEgress rule.groupID rule.cidrBlock "tcp"
          rule.startPort rule.endPort], conn.revokeEgressResult)
    else
      ([ApiCall.revokeSecurityGroupIngress rule.groupID rule.cidrBlock "tcp"
          rule.startPort rule.endPort], conn.revokeIngressResult)

/-- DeleteSecurityGroupRule (security_group_rule.go:175-183): wraps the
run function; on a nil error it sets `Created` to false on the returned
copy (unconditionally, pre-existing rules included). -/
def DeleteSecurityGroupRule (conn : Ec2SgConn) (rule : SecurityGroupRule) :
    List ApiCall × (SecurityGroupRule × Option String) :=
  match runSecurityGroupRuleDelete conn rule with
  | (calls, some e) => (calls, (rule, some e))
  | (calls, none) => (calls, ({ rule with created := false }, none))

/-! ## Network ACLs: data model -/

/-- ec2.PortRange; `From`/`To` are `*int64` (renamed `fromPort`/`toPort`
because `from` is reserved in Lean). -/
structure PortRange where
  fromPort : Option Int
  toPort : Option Int
  deriving Repr, DecidableEq

/-- ec2.NetworkAclEntry, restricted to fields the code reads plus the
protocol/action fields present in the fixtures. -/
structure NetworkAclEntry where
  cidrBlock : Option String
  egress : Option Bool
  portRange : Option PortRange
  protocol : Option String
  ruleAction : Option String
  ruleNumber : Option Int
  deriving Repr, DecidableEq

/-- ec2.NetworkAcl, restricted to its `Entries`. -/
structure NetworkAcl where
  entries : List NetworkAclEntry
  deriving Repr, DecidableEq

/-- Canned EC2 responses for the network-ACL operations. -/
structure Ec2NaclConn where
  describeNetworkAcls : Except String (List NetworkAcl)
  createEntryResult : Option String
  deleteEntryResult : Option String

/-- NetworkACLRule struct from nacl_rule.go. -/
structure NetworkACLRule where
  cidrBlock : String
  created : Bool
  egress : Bool
  networkAclID : String
  startPort : Int
  endPort : Int
  preExisting : Bool
  ruleNumber : Int
  deriving Repr, DecidableEq

/-! ## Network ACLs: operations -/

/-- The `nums` collection loop of FindVacantNetworkACLRule
(nacl_rule.go:71-74); dereferences every entry's `RuleNumber`. -/
def collectRuleNumbers : List NetworkAclEntry → GoResult (List Int)
  | [] => .ok []
  | e :: rest =>
    match e.ruleNumber with
    | none => .panicked
    | some n =>
      match collectRuleNumbers rest with
      | .panicked => .panicked
      | .ok ns => .ok (n :: ns)

/-- The scan of FindVacantNetworkACLRule (nacl_rule.go:77-83):
`n := 0; for _, v := range nums { if v != n { break }; n++ }; return n`. -/
def vacantScan : List Int → Int → Int
  | [], n => n
  | v :: rest, n => if v ≠ n then n else vacantScan rest (n + 1)

/-- `sort.Ints` ascending.  Any correct sort of integers produces the one
`≤`-sorted permutation of the input, so insertion sort embeds it exactly. -/
def sortInts (l : List Int) : List Int :=
  List.insertionSort (fun a b => a ≤ b) l

/-- FindVacantNetworkACLRule (nacl_rule.go:53-86): describe the ACL
(0 results is a returned error, more than one a panic), collect all rule
numbers of both directions, sort ascending and scan from 0. -/
def FindVacantNetworkACLRule (conn : Ec2NaclConn) (acl : String) :
    List ApiCall × GoResult (Int × Option String) :=
  let calls := [ApiCall.describeNetworkAcls acl]
  match conn.describeNetworkAcls with
  | .error e => (calls, .ok (0, some e))
  | .ok acls =>
    match acls with
    | [] => (calls, .ok (0, some ("Network ACL " ++ acl ++ " not found.")))
    | [a] =>
      match collectRuleNumbers a.entries with
      | .panicked => (calls, .panicked)
      | .ok nums => (calls, .ok (vacantScan (sortInts nums) 0, none))
    | _ :: _ :: _ => (calls, .panicked)

/-- Match loop of FindPreExistingNetworkACLRule (nacl_rule.go:112-118).
The Go condition `*v.CidrBlock == cidr && int(*v.PortRange.From) == start
&& int(*v.PortRange.To) == end && *v.Egress == egress` short-circuits
left to right, so `PortRange` is only dereferenced after the CIDR
matched, `To` only after `From` matched, and so on. -/
def naclMatchLoop (cidr : String) (startPort endPort : Int) (egress : Bool) :
    List NetworkAclEntry → GoResult Int
  | [] => .ok (-1)
  | v :: rest =>
    match v.cidrBlock with
    | none => .panicked
    | some c =>
      if c = cidr then
        match v.portRange with
        | none => .panicked
        | some pr =>
          match pr.fromPort with
          | none => .panicked
          | some f =>
            if f = startPort then
              match pr.toPort with
              | none => .panicked
              | some t =>
                if t = endPort then
                  match v.egress with
                  | none => .panicked
                  | some eg =>
                    if eg = egress then
                      match v.ruleNumber with
                      | none => .panicked
                      | some n => .ok n
                    else naclMatchLoop cidr startPort endPort egress rest
                else naclMatchLoop cidr startPort endPort egress rest
            else naclMatchLoop cidr startPort endPort egress rest
      else naclMatchLoop cidr startPort endPort egress rest

/-- FindPreExistingNetworkACLRule (nacl_rule.go:94-119): returns the
matched entry's rule number, or -1 when no entry matches. -/
def FindPreExistingNetworkACLRule (conn : Ec2NaclConn) (acl cidr : String)
    (startPort endPort : Int) (egress : Bool) :
    List ApiCall × GoResult (Int × Option String) :=
  let calls := [ApiCall.describeNetworkAcls acl]
  match conn.describeNetworkAcls with
  | .error e => (calls, .ok (0, some e))
  | .ok acls =>
    match acls with
    | [] => (calls, .ok (0, some ("Network ACL " ++ acl ++ " not found.")))
    | [a] =>
      match naclMatchLoop cidr startPort endPort egress a.entries with
      | .panicked => (calls, .panicked)
      | .ok n => (calls, .ok (n, none))
    | _ :: _ :: _ => (calls, .panicked)

/-- CreateNetworkACLRule (nacl_rule.go:129-176): check for a pre-existing
entry; if found, return its number flagged pre-existing with no mutation;
otherwise find the first vacant number and create a TCP allow entry there. -/
def CreateNetworkACLRule (conn : Ec2NaclConn) (acl cidr : String)
    (startPort endPort : Int) (egress : Bool) :
    List ApiCall × GoResult (NetworkACLRule × Option String) :=
  let rule : NetworkACLRule :=
    { cidrBlock := cidr, created := false, egress := egress, networkAclID := acl,
      startPort := startPort, endPort := endPort, preExisting := false,
      ruleNumber := 0 }
  match FindPreExistingNetworkACLRule conn acl cidr startPort endPort egress with
  | (calls, .panicked) => (calls, .panicked)
  | (calls, .ok (n, err)) =>
    match err with
    | some e => (calls, .ok (rule, some e))
    | none =>
      if n ≠ -1 then
        let found : NetworkACLRule :=
          { rule with preExisting := true, ruleNumber := n, created := true }
        (calls, .ok (found, none))
      else
        match FindVacantNetworkACLRule conn acl with
        | (calls2, .panicked) => (calls ++ calls2, .panicked)
        | (calls2, .ok (m, err2)) =>
          match err2 with
          | some e => (calls ++ calls2, .ok (rule, some e))
          | none =>
            let calls3 := calls ++ calls2 ++
              [ApiCall.createNetworkAclEntry acl cidr egress "TCP" "allow"
                startPort endPort m]
            match conn.createEntryResult with
            | some e => (calls3, .ok (rule, some e))
            | none => (calls3, .ok ({ rule with ruleNumber := m, created := true },
                                    none))

/-- runNetworkACLRuleDelete (nacl_rule.go:181-200): nothing is done for a
pre-existing rule; otherwise the delete-entry call keyed by ACL ID,
direction and rule number is issued. -/
def runNetworkACLRuleDelete (conn : Ec2NaclConn) (rule : NetworkACLRule) :
    List ApiCall × Option String :=
  if rule.preExisting then ([], none)
  else
    ([ApiCall.deleteNetworkAclEntry rule.networkAclID rule.egress rule.ruleNumber],
      conn.deleteEntryResult)

/-- DeleteNetworkACLRule (nacl_rule.go:203-211): wraps the run function;
on a nil error it sets `Created` to false on the returned copy
(unconditionally, pre-existing rules included). -/
def DeleteNetworkACLRule (conn : Ec2NaclConn) (rule : NetworkACLRule) :
    List ApiCall × (NetworkACLRule × Option String) :=
  match runNetworkACLRuleDelete conn rule with
  | (calls, some e) => (calls, (rule, some e))
  | (calls, none) => (calls, ({ rule with created := false }, none))

/-! ## AMI resolver (instance.go): RFC3339 parsing and most-recent selection

The code sorts images with `sort.Sort` under a `Less` that compares
`time.Parse(time.RFC3339, *CreationDate)` results by their `Unix()`
second value, ignoring the parse error (a failed parse yields Go's zero
`time.Time`).  `parseRFC3339` below embeds `time.Parse` with the RFC3339
layout on the inputs this code can meet: it returns the Unix second and
the fractional-second nanoseconds on success, `none` on any malformed
input. -/

/-- Bool digit test for `0`-`9`. -/
def isDigitChar (c : Char) : Bool := '0' ≤ c && c ≤ '9'

/-- Numeric value of a decimal digit character. -/
def digitVal (c : Char) : Nat := c.toNat - '0'.toNat

/-- Two decimal digits, validated. -/
def parse2 (a b : Char) : Option Nat :=
  if isDigitChar a && isDigitChar b then some (digitVal a * 10 + digitVal b)
  else none

/-- Four decimal digits, validated. -/
def parse4 (a b c d : Char) : Option Nat :=
  if isDigitChar a && isDigitChar b && isDigitChar c && isDigitChar d then
    some (digitVal a * 1000 + digitVal b * 100 + digitVal c * 10 + digitVal d)
  else none

/-- Gregorian leap-year test. -/
def isLeap (y : Int) : Bool := y % 4 == 0 && (y % 100 != 0 || y % 400 == 0)

/-- Days in a month of the proleptic Gregorian calendar. -/
def daysInMonth (y : Int) (m : Nat) : Nat :=
  if m = 2 then (if isLeap y then 29 else 28)
  else if m = 4 ∨ m = 6 ∨ m = 9 ∨ m = 11 then 30
  else 31

/-- Days since the Unix epoch of a civil date (standard era-based
civil-to-days conversion; truncating division is safe because the era
adjustment keeps the dividends non-negative). -/
def daysFromCivil (y m d : Int) : Int :=
  let yAdj := if m ≤ 2 then y - 1 else y
  let era := (if 0 ≤ yAdj then yAdj else yAdj - 399) / 400
  let yoe := yAdj - era * 400
  let mp := if 2 < m then m - 3 else m + 9
  let doy := (153 * mp + 2) / 5 + d - 1
  let doe := yoe * 365 + yoe / 4 - yoe / 100 + doy
  era * 146097 + doe - 719468

/-- Value of a fractional-second digit run as nanoseconds (at most the
first nine digits carry precision, as in Go's nanosecond clock). -/
def nanosOfDigits (ds : List Char) : Nat :=
  let ds9 := ds.take 9 ++ List.replicate (9 - ds.length) '0'
  ds9.foldl (fun acc c => acc * 10 + digitVal c) 0

/-- Timezone suffix of an RFC3339 string: `Z` or `±hh:mm`; yields the
offset in seconds east of UTC. -/
def parseZone : List Char → Option Int
  | ['Z'] => some 0
  | c :: h1 :: h2 :: ':' :: m1 :: m2 :: [] =>
    if c = '+' ∨ c = '-' then
      match parse2 h1 h2, parse2 m1 m2 with
      | some hh, some mm =>
        if hh ≤ 23 ∧ mm ≤ 59 then
          let off : Int := (hh : Int) * 3600 + (mm : Int) * 60
          some (if c = '+' then off else -off)
        else none
      | _, _ => none
    else none
  | _ => none

/-- Optional `.fraction` followed by the timezone: yields nanoseconds and
offset seconds. -/
def parseFracZone : List Char → Option (Nat × Int)
  | '.' :: rest =>
    let ds := rest.takeWhile isDigitChar
    if ds.isEmpty then none
    else
      match parseZone (rest.dropWhile isDigitChar) with
      | some off => some (nanosOfDigits ds, off)
      | none => none
  | rest =>
    match parseZone rest with
    | some off => some (0, off)
    | none => none

/-- `time.Parse(time.RFC3339, s)`: on success, the instant as (Unix
second, nanosecond-within-second); `none` models a parse error. -/
def parseRFC3339 (s : String) : Option (Int × Nat) :=
  match s.data with
  | y1 :: y2 :: y3 :: y4 :: '-' :: mo1 :: mo2 :: '-' :: d1 :: d2 :: 'T' ::
      h1 :: h2 :: ':' :: mi1 :: mi2 :: ':' :: s1 :: s2 :: rest =>
    match parse4 y1 y2 y3 y4, parse2 mo1 mo2, parse2 d1 d2,
          parse2 h1 h2, parse2 mi1 mi2, parse2 s1 s2 with
    | some y, some mo, some dy, some hh, some mi, some ss =>
      if 1 ≤ mo ∧ mo ≤ 12 ∧ 1 ≤ dy ∧ dy ≤ daysInMonth (y : Int) mo ∧
          hh ≤ 23 ∧ mi ≤ 59 ∧ ss ≤ 59 then
        match parseFracZone rest with
        | some (nanos, off) =>
          some (daysFromCivil (y : Int) (mo : Int) (dy : Int) * 86400 +
                (hh : Int) * 3600 + (mi : Int) * 60 + (ss : Int) - off, nanos)
        | none => none
      else none
    | _, _, _, _, _, _ => none
  | _ => none

/-- `Unix()` of Go's zero `time.Time` (0001-01-01T00:00:00 UTC), the
value an unparseable timestamp sorts by. -/
def goZeroTimeUnix : Int := -62135596800

/-- ec2.Image restricted to the two fields the code reads.  Both are
`*string` in the SDK and are dereferenced unconditionally by
`imageSort.Less` and `LocateImage`, so the embedding carries them as
plain strings (the AWS catalog always populates them). -/
structure Image where
  creationDate : String
  imageId : String
  deriving Repr, DecidableEq

/-- The sort key of `imageSort.Less` (instance.go:95-99): the parsed
creation time's `Unix()` second, with a failed parse contributing the
zero time. -/
def imageKey (img : Image) : Int :=
  match parseRFC3339 img.creationDate with
  | some (sec, _) => sec
  | none => goZeroTimeUnix

/-- The ordering `sort.Sort` establishes: `Less` is a strict comparison
of `imageKey`, so a sorted slice is non-decreasing in `imageKey`. -/
def imageLE (a b : Image) : Prop := imageKey a ≤ imageKey b

instance : DecidableRel imageLE := fun a b => Int.decLe _ _

instance : IsTotal Image imageLE := ⟨fun a b => Int.le_total _ _⟩

instance : IsTrans Image imageLE := ⟨fun _ _ _ h h' => le_trans h h'⟩

/-- Contract of `sort.Sort` with `imageSort`: the slice is permuted into
`imageKey`-non-decreasing order.  The Go library sort is *not* stable,
so nothing beyond this contract may be assumed for slices with equal
keys. -/
def SortSpec (f : List Image → List Image) : Prop :=
  ∀ l, (f l).Perm l ∧ (f l).Sorted imageLE

/-- The sort `sort.Sort` actually performs on slices of at most six
images, in every Go release: the classic insertion sort (the pre-1.19
shell pass needs at least seven elements, and pdqsort's small-slice path
is insertion sort).  Used to evaluate `mostRecentAmi` on concrete small
inputs. -/
def goSortImages (l : List Image) : List Image :=
  List.insertionSort imageLE l

/-- mostRecentAmi (instance.go:102-106): sort ascending, return the last
element (indexing `len-1` on an empty slice is an out-of-range panic).
The library sort routine is the `sortImpl` parameter, constrained by
`SortSpec` in the theorems and instantiated with `goSortImages` on
concrete inputs. -/
def mostRecentAmi (sortImpl : List Image → List Image) (images : List Image) :
    GoResult Image :=
  match (sortImpl images).getLast? with
  | none => .panicked
  | some img => .ok img

/-- Canned response for DescribeImages. -/
structure Ec2ImageConn where
  describeImages : Except String (List Image)

/-- LocateImage (instance.go:181-197): describe images by the fixed AMI
filters; an empty catalog is a returned error; otherwise the most recent
image's ID is returned. -/
def LocateImage (sortImpl : List Image → List Image) (conn : Ec2ImageConn) :
    GoResult (String × Option String) :=
  match conn.describeImages with
  | .error e => .ok ("", some e)
  | .ok imgs =>
    match imgs with
    | [] => .ok ("", some "No default image found. You may need to update bastion.")
    | _ :: _ =>
      match mostRecentAmi sortImpl imgs with
      | .panicked => .panicked
      | .ok img => .ok (img.imageId, none)

/-! ## Instance readiness (instance.go) -/

/-- ec2.InstanceState; `Name` is a `*string`. -/
structure InstanceState where
  name : Option String
  deriving Repr, DecidableEq

/-- ec2.Instance restricted to the fields the code reads; all are
pointers in the SDK. -/
structure Ec2Instance where
  state : Option InstanceState
  instanceId : Option String
  publicIpAddress : Option String
  privateIpAddress : Option String
  deriving Repr, DecidableEq

/-- ec2.Reservation restricted to its `Instances`. -/
structure Reservation where
  instances : List Ec2Instance
  deriving Repr, DecidableEq

/-- The EC2/SSH environment of the instance lifecycle.  The two polling
loops are driven by wall-clock deadlines in the source; the embedding
gives each loop a budget of iterations (the number of polls the
300-second window admits) and lets the backend answer each poll by its
index. -/
structure Ec2InstanceConn where
  describeImages : Except String (List Image)
  runInstances : Except String (List Ec2Instance)
  describeInstances : Nat → Except String (List Reservation)
  sshKeyParses : String → Bool
  sshDial : Nat → Bool
  startPollBudget : Nat
  sshPollBudget : Nat

/-- const startTimeout (instance.go:16). -/
def startTimeout : Int := 300

/-- const instanceType (instance.go:19). -/
def instanceTypeConst : String := "t2.nano"

/-- const sshUser (instance.go:22). -/
def sshUserConst : String := "ec2-user"

/-- KeyPair struct from key_pair.go (fields used here). -/
structure KeyPair where
  created : Bool
  fingerprint : String
  keyName : String
  privateKeyPEM : String
  deriving Repr, DecidableEq

/-- waitForInstanceStart (instance.go:110-149): poll describe-by-ID until
the instance state reads "running" or the window closes.  A response
without exactly one reservation panics; a reservation with zero instances
returns the error "No instances were found."; more than one instance
panics.  `fuel` is the remaining iteration budget, `i` the poll index. -/
def waitForInstanceStart (seq : Nat → Except String (List Reservation))
    (timeout : Int) : Nat → Nat → GoResult (Option Ec2Instance × Option String)
  | 0, _ =>
    .ok (none, some ("Instance was not started after " ++ toString timeout ++
                     " seconds"))
  | fuel + 1, i =>
    match seq i with
    | .error e => .ok (none, some e)
    | .ok reservations =>
      match reservations with
      | [r] =>
        match r.instances with
        | [] => .ok (none, some "No instances were found.")
        | [inst] =>
          match inst.state with
          | none => .panicked
          | some st =>
            match st.name with
            | none => .panicked
            | some nm =>
              if nm = "running" then .ok (some inst, none)
              else waitForInstanceStart seq timeout fuel (i + 1)
        | _ :: _ :: _ => .panicked
      | _ => .panicked

/-- The dial loop of waitForSSH (instance.go:169-176): retry
`ssh.Dial` until one attempt succeeds or the window closes. -/
def sshLoop (dial : Nat → Bool) (timeout : Int) : Nat → Nat → Option String
  | 0, _ => some ("SSH could not be connected after " ++ toString timeout ++
                  " seconds")
  | fuel + 1, i => if dial i then none else sshLoop dial timeout fuel (i + 1)

/-- waitForSSH (instance.go:153-177): `ssh.ParsePrivateKey` failure is a
`log.Fatalf`, i.e. process abort, modelled as a panic; otherwise the dial
loop runs. -/
def waitForSSH (keyParses : String → Bool) (dial : Nat → Bool)
    (addr user : String) (key : KeyPair) (timeout : Int) (fuel : Nat) :
    GoResult (Option String) :=
  if keyParses key.privateKeyPEM then .ok (sshLoop dial timeout fuel 0)
  else .panicked

/-- Instance struct from instance.go. -/
structure Instance where
  created : Bool
  imageID : String
  instanceID : String
  instanceType : String
  subnetID : String
  keyPairName : String
  securityGroupID : String
  publicIPAddress : String
  privateIPAddress : String
  sshUser : String
  deriving Repr, DecidableEq

/-- CreateInstance (instance.go:201-269): locate an AMI, launch exactly
one instance, wait for "running", require a public address, wait for SSH
reachability, then populate the addresses and set Created.  Every error
return hands back the initial partially populated struct unchanged. -/
def CreateInstance (sortImpl : List Image → List Image)
    (conn : Ec2InstanceConn) (subnet securityGroup : String)
    (keyPair : KeyPair) : GoResult (Instance × Option String) :=
  let inst0 : Instance :=
    { created := false, imageID := "", instanceID := "",
      instanceType := instanceTypeConst, subnetID := subnet,
      keyPairName := keyPair.keyName, securityGroupID := securityGroup,
      publicIPAddress := "", privateIPAddress := "", sshUser := sshUserConst }
  match LocateImage sortImpl ⟨conn.describeImages⟩ with
  | .panicked => .panicked
  | .ok (_ami, lerr) =>
    match lerr with
    | some e => .ok (inst0, some e)
    | none =>
      match conn.runInstances with
      | .error e => .ok (inst0, some e)
      | .ok insts =>
        match insts with
        | [] => .ok (inst0, some "No instances were launched.")
        | [launched] =>
          match launched.instanceId with
          | none => .panicked
          | some _iid =>
            match waitForInstanceStart conn.describeInstances startTimeout
                conn.startPollBudget 0 with
            | .panicked => .panicked
            | .ok (newInstOpt, werr) =>
              match werr with
              | some e => .ok (inst0, some e)
              | none =>
                match newInstOpt with
                | none => .panicked
                | some newInst =>
                  match newInst.publicIpAddress with
                  | none =>
                    match newInst.instanceId with
                    | none => .panicked
                    | some iid2 =>
                      .ok (inst0, some ("Instance ID " ++ iid2 ++
                            " does not have a public IP address."))
                  | some pub =>
                    match waitForSSH conn.sshKeyParses conn.sshDial pub
                        sshUserConst keyPair startTimeout conn.sshPollBudget with
                    | .panicked => .panicked
                    | .ok serr =>
                      match serr with
                      | some e => .ok (inst0, some e)
                      | none =>
                        match newInst.instanceId, newInst.privateIpAddress with
                        | some iid3, some priv =>
                          let done : Instance :=
                            { inst0 with
                                instanceID := iid3
                                publicIPAddress := pub
                                privateIPAddress := priv
                                created := true }
                          .ok (done, none)
                        | _, _ => .panicked
        | _ :: _ :: _ => .panicked

/-! ## Specification predicates and concrete fixtures -/

/-- The exact-equality match the spec describes for a security-group
permission: port bounds exactly the requested ones and some range whose
CIDR string is byte-identical to the request. -/
def sgPermMatches (cidr : String) (startPort endPort : Int)
    (p : IpPermission) : Prop :=
  p.fromPort = some startPort ∧ p.toPort = some endPort ∧
    ∃ r ∈ p.ipRanges, r.cidrIp = some cidr

instance (cidr : String) (s e : Int) (p : IpPermission) :
    Decidable (sgPermMatches cidr s e p) := by
  unfold sgPermMatches; infer_instance

/-- Well-formedness of a permission as the AWS API returns it for
port-bearing rules: every range carries a CIDR and both port bounds are
present. -/
def sgPermWf (p : IpPermission) : Prop :=
  (∀ r ∈ p.ipRanges, r.cidrIp ≠ none) ∧ p.fromPort ≠ none ∧ p.toPort ≠ none

instance (p : IpPermission) : Decidable (sgPermWf p) := by
  unfold sgPermWf; infer_instance

/-- The exact-equality match for a network-ACL entry: CIDR byte-identical,
port bounds exactly the requested ones, direction equal. -/
def naclEntryMatches (cidr : String) (startPort endPort : Int)
    (egress : Bool) (en : NetworkAclEntry) : Prop :=
  en.cidrBlock = some cidr ∧
    (∃ pr, en.portRange = some pr ∧ pr.fromPort = some startPort ∧
      pr.toPort = some endPort) ∧
    en.egress = some egress

/-- Well-formedness of an ACL entry: CIDR, a port range with both bounds,
direction flag and rule number all present. -/
def naclEntryWf (en : NetworkAclEntry) : Prop :=
  en.cidrBlock ≠ none ∧
    (∃ pr, en.portRange = some pr ∧ pr.fromPort ≠ none ∧ pr.toPort ≠ none) ∧
    en.egress ≠ none ∧ en.ruleNumber ≠ none

/-- The direction's permission list, as selected at
security_group_rule.go:60-65. -/
def sgDir (egress : Bool) (g : SecurityGroup) : List IpPermission :=
  if egress then g.ipPermissionsEgress else g.ipPermissions

/-- Boolean counterpart of `sgPermMatches`. -/
def sgMatchB (cidr : String) (startPort endPort : Int) (p : IpPermission) : Bool :=
  p.fromPort == some startPort && p.toPort == some endPort &&
    p.ipRanges.any (fun r => r.cidrIp == some cidr)

/-- Boolean counterpart of `naclEntryMatches`. -/
def naclMatchB (cidr : String) (startPort endPort : Int) (egress : Bool)
    (en : NetworkAclEntry) : Bool :=
  en.cidrBlock == some cidr &&
    (match en.portRange with
     | some pr => pr.fromPort == some startPort && pr.toPort == some endPort
     | none => false) &&
    en.egress == some egress

/-- The number the match loop reports: the first matching entry's rule
number, or -1 when none matches. -/
def naclFindNum (cidr : String) (startPort endPort : Int) (egress : Bool)
    (entries : List NetworkAclEntry) : Int :=
  match entries.find? (naclMatchB cidr startPort endPort egress) with
  | some en => en.ruleNumber.getD 0
  | none => -1

/-- Boolean counterpart of `naclEntryWf`. -/
def naclWfB (en : NetworkAclEntry) : Bool :=
  en.cidrBlock.isSome &&
    (match en.portRange with
     | some pr => pr.fromPort.isSome && pr.toPort.isSome
     | none => false) &&
    en.egress.isSome && en.ruleNumber.isSome

instance (cidr : String) (s e : Int) (eg : Bool) (en : NetworkAclEntry) :
    Decidable (naclEntryMatches cidr s e eg en) :=
  decidable_of_iff (naclMatchB cidr s e eg en = true) (by
    cases hpr : en.portRange with
    | none => simp [naclMatchB, naclEntryMatches, hpr]
    | some pr => simp [naclMatchB, naclEntryMatches, hpr, and_assoc])

instance (en : NetworkAclEntry) : Decidable (naclEntryWf en) :=
  decidable_of_iff (naclWfB en = true) (by
    cases hpr : en.portRange with
    | none => simp [naclWfB, naclEntryWf, hpr]
    | some pr =>
      simp [naclWfB, naclEntryWf, hpr, Option.isSome_iff_ne_none, and_assoc])

/-- Replace a permission's protocol field (used to state that matching
never reads it). -/
def mapPermProtocol (f : Option String → Option String)
    (p : IpPermission) : IpPermission :=
  { p with ipProtocol := f p.ipProtocol }

/-- Replace every permission's protocol in a security group. -/
def mapSgProtocols (f : Option String → Option String)
    (g : SecurityGroup) : SecurityGroup :=
  { ipPermissions := g.ipPermissions.map (mapPermProtocol f),
    ipPermissionsEgress := g.ipPermissionsEgress.map (mapPermProtocol f) }

/-- Replace every permission's protocol in a describe response. -/
def mapConnProtocols (f : Option String → Option String)
    (conn : Ec2SgConn) : Ec2SgConn :=
  { conn with
      describeSecurityGroups :=
        match conn.describeSecurityGroups with
        | .error e => .error e
        | .ok gs => .ok (gs.map (mapSgProtocols f)) }

/-- A security-group backend whose describe call returns the one given
group and whose mutation calls all succeed. -/
def sgConnOf (g : SecurityGroup) : Ec2SgConn :=
  { describeSecurityGroups := .ok [g], authorizeEgressResult := none,
    authorizeIngressResult := none, revokeEgressResult := none,
    revokeIngressResult := none }

/-- A permission exactly as CreateSecurityGroupRule's authorize call
produces it: tcp, the given ports, one range with the given CIDR. -/
def tcpPerm (cidr : String) (f t : Int) : IpPermission :=
  { fromPort := some f, toPort := some t, ipProtocol := some "tcp",
    ipRanges := [{ cidrIp := some cidr }] }

/-- The group state right after a successful ingress Create for
10.0.0.0/24 ports 22-22: exactly the permission the authorize call adds. -/
def postCreateGroup : SecurityGroup :=
  { ipPermissions := [tcpPerm "10.0.0.0/24" 22 22], ipPermissionsEgress := [] }

/-- A permission identical to `tcpPerm "10.0.0.0/24" 22 22` except that
its protocol is udp. -/
def udpPerm : IpPermission :=
  { fromPort := some 22, toPort := some 22, ipProtocol := some "udp",
    ipRanges := [{ cidrIp := some "10.0.0.0/24" }] }

/-- A group whose only ingress permission is the udp one. -/
def udpGroup : SecurityGroup :=
  { ipPermissions := [udpPerm], ipPermissionsEgress := [] }

/-- A network-ACL backend whose describe call returns one ACL with the
given entries and whose mutation calls all succeed. -/
def naclConnOf (entries : List NetworkAclEntry) : Ec2NaclConn :=
  { describeNetworkAcls := .ok [{ entries := entries }],
    createEntryResult := none, deleteEntryResult := none }

/-- A fully populated TCP allow entry, as in the repository's fixtures. -/
def naclEntry (cidr : String) (egress : Bool) (f t n : Int) : NetworkAclEntry :=
  { cidrBlock := some cidr, egress := some egress,
    portRange := some { fromPort := some f, toPort := some t },
    protocol := some "TCP", ruleAction := some "allow", ruleNumber := some n }

/-- A security-group rule marked pre-existing (and live), as `Create`
returns it when it finds a match. -/
def preSgRule : SecurityGroupRule :=
  { cidrBlock := "10.0.1.0/24", created := true, egress := false,
    groupID := "sg-123456", startPort := 22, endPort := 22,
    preExisting := true }

/-- A network-ACL rule marked pre-existing (and live). -/
def preNaclRule : NetworkACLRule :=
  { cidrBlock := "10.0.1.0/24", created := true, egress := false,
    networkAclID := "nacl-123456", startPort := 22, endPort := 22,
    preExisting := true, ruleNumber := 100 }

/-- A backend with an empty security group. -/
def emptySgConn : Ec2SgConn := sgConnOf { ipPermissions := [], ipPermissionsEgress := [] }

/-- A backend with an empty network ACL. -/
def emptyNaclConn : Ec2NaclConn := naclConnOf []

/-- An all-protocols entry (protocol "-1") as AWS returns it: no port
range.  Its CIDR does not match the requests used below. -/
def allProtoDenyEntry : NetworkAclEntry :=
  { cidrBlock := some "0.0.0.0/0", egress := some false, portRange := none,
    protocol := some "-1", ruleAction := some "deny", ruleNumber := some 32767 }

/-- An all-protocols entry whose CIDR *does* match the request used
below, so the match loop reaches its missing port range. -/
def allProtoMatchingEntry : NetworkAclEntry :=
  { cidrBlock := some "10.0.0.0/24", egress := some false, portRange := none,
    protocol := some "-1", ruleAction := some "allow", ruleNumber := some 1 }

/-- Image fixtures (creation dates from the repository's test data). -/
def img2014 : Image := { creationDate := "2014-06-22T09:19:44.000Z", imageId := "ami-8172b616" }

/-- 2016 image from the repository's test data. -/
def img2016 : Image := { creationDate := "2016-06-22T09:19:44.000Z", imageId := "ami-7172b611" }

/-- An image whose creation date does not parse as RFC3339. -/
def imgBadDate : Image := { creationDate := "not-a-date", imageId := "ami-baddate" }

/-- Image whose timestamp is half a second past the whole second. -/
def imgHalfSecond : Image := { creationDate := "2016-01-01T00:00:00.5Z", imageId := "ami-half" }

/-- Image on the whole second, listed after `imgHalfSecond`. -/
def imgWholeSecond : Image := { creationDate := "2016-01-01T00:00:00Z", imageId := "ami-whole" }

/-- Demo catalog with an unparseable date mixed in. -/
def demoImages : List Image := [img2014, imgBadDate, img2016]

/-- A described instance in the "running" state with both addresses. -/
def runningInst : Ec2Instance :=
  { state := some { name := some "running" }, instanceId := some "i-1234567890abcdef0",
    publicIpAddress := some "54.0.0.1", privateIpAddress := some "10.0.0.1" }

/-- A described instance still in the "pending" state. -/
def pendingInst : Ec2Instance :=
  { state := some { name := some "pending" }, instanceId := some "i-1234567890abcdef0",
    publicIpAddress := none, privateIpAddress := some "10.0.0.1" }

/-- Poll responses whose first answer carries a reservation with zero
instances and which report "running" from the second poll on. -/
def zeroThenRunningSeq : Nat → Except String (List Reservation)
  | 0 => .ok [{ instances := [] }]
  | _ + 1 => .ok [{ instances := [runningInst] }]

/-- Poll responses that always report the running instance. -/
def alwaysRunningSeq : Nat → Except String (List Reservation) :=
  fun _ => .ok [{ instances := [runningInst] }]

/-- Key pair fixture from the repository's test data. -/
def testKp : KeyPair :=
  { created := true, fingerprint := "Fingerprint", keyName := "bastion-test",
    privateKeyPEM := "PrivateKeyPEM" }

/-- An instance backend on which every step of CreateInstance succeeds. -/
def happyInstanceConn : Ec2InstanceConn :=
  { describeImages := .ok [img2014, img2016], runInstances := .ok [runningInst],
    describeInstances := alwaysRunningSeq,
    sshKeyParses := fun _ => true, sshDial := fun _ => true,
    startPollBudget := 3, sshPollBudget := 3 }

/-- An instance backend whose launch call fails. -/
def launchFailConn : Ec2InstanceConn :=
  { describeImages := .ok [img2014, img2016], runInstances := .error "api failure",
    describeInstances := alwaysRunningSeq,
    sshKeyParses := fun _ => true, sshDial := fun _ => true,
    startPollBudget := 3, sshPollBudget := 3 }

/-- The Instance CreateInstance returns on `happyInstanceConn`. -/
def happyInstance : Instance :=
  { created := true, imageID := "", instanceID := "i-1234567890abcdef0",
    instanceType := "t2.nano", subnetID := "subnet-123456",
    keyPairName := "bastion-test", securityGroupID := "sg-123456",
    publicIPAddress := "54.0.0.1", privateIPAddress := "10.0.0.1",
    sshUser := "ec2-user" }

/-- The partially populated Instance CreateInstance returns when the
launch call fails on `launchFailConn`. -/
def launchFailInstance : Instance :=
  { created := false, imageID := "", instanceID := "",
    instanceType := "t2.nano", subnetID := "subnet-123456",
    keyPairName := "bastion-test", securityGroupID := "sg-123456",
    publicIPAddress := "", privateIPAddress := "", sshUser := "ec2-user" }

/-! ## Matcher characterization lemmas -/

/-- The range loop computes the exact-equality test, provided the fields
it dereferences are present. -/
lemma sgRangeLoop_eq (cidr : String) (s e : Int) (fp tp : Option Int)
    (ranges : List IpRange) (hr : ∀ r ∈ ranges, r.cidrIp ≠ none)
    (hf : fp ≠ none) (ht : tp ≠ none) :
    sgRangeLoop cidr s e fp tp ranges =
      .ok (fp == some s && tp == some e &&
           ranges.any (fun r => r.cidrIp == some cidr)) := by
  induction ranges with
  | nil => simp [sgRangeLoop]
  | cons r rest ih =>
    have hr0 : r.cidrIp ≠ none := hr r (List.mem_cons_self r rest)
    have hrest : ∀ x ∈ rest, x.cidrIp ≠ none :=
      fun x hx => hr x (List.mem_cons_of_mem r hx)
    obtain ⟨c, hc⟩ := Option.ne_none_iff_exists'.mp hr0
    obtain ⟨f, hfv⟩ := Option.ne_none_iff_exists'.mp hf
    obtain ⟨t, htv⟩ := Option.ne_none_iff_exists'.mp ht
    subst hfv htv
    have hih := ih hrest
    by_cases hcc : c = cidr
    · subst hcc
      by_cases hfs : f = s
      · subst hfs
        by_cases hte : t = e
        · subst hte
          simp [sgRangeLoop, hc]
        · have h1 : (t == e) = false := by simp [hte]
          simp [sgRangeLoop, hc, hte, h1, hih]
      · have h1 : (f == s) = false := by simp [hfs]
        simp [sgRangeLoop, hc, hfs, h1, hih]
    · have h1 : (c == cidr) = false := by simp [hcc]
      simp [sgRangeLoop, hc, hcc, h1, hih]

/-- The permission loop computes "some permission matches exactly",
provided the direction's permissions are well-formed. -/
lemma sgPermLoop_eq (cidr : String) (s e : Int) (perms : List IpPermission)
    (hwf : ∀ p ∈ perms, sgPermWf p) :
    sgPermLoop cidr s e perms = .ok (perms.any (sgMatchB cidr s e)) := by
  induction perms with
  | nil => simp [sgPermLoop]
  | cons p rest ih =>
    obtain ⟨hr, hf, ht⟩ := hwf p (List.mem_cons_self p rest)
    have hrest : ∀ q ∈ rest, sgPermWf q :=
      fun q hq => hwf q (List.mem_cons_of_mem p hq)
    have hrl := sgRangeLoop_eq cidr s e p.fromPort p.toPort p.ipRanges hr hf ht
    cases hb : sgMatchB cidr s e p with
    | true =>
      simp only [sgPermLoop, hrl]
      rw [show (p.fromPort == some s && p.toPort == some e &&
            p.ipRanges.any (fun r => r.cidrIp == some cidr)) = true from hb]
      simp [hb]
    | false =>
      simp only [sgPermLoop, hrl]
      rw [show (p.fromPort == some s && p.toPort == some e &&
            p.ipRanges.any (fun r => r.cidrIp == some cidr)) = false from hb]
      simp [hb, ih hrest]

/-- Boolean and propositional exact matching agree. -/
lemma sgMatchB_iff (cidr : String) (s e : Int) (p : IpPermission) :
    sgMatchB cidr s e p = true ↔ sgPermMatches cidr s e p := by
  simp [sgMatchB, sgPermMatches, and_assoc]

/-- FindPreExistingSecurityGroupRule, on a single well-formed group,
issues exactly the describe call and reports the exact-equality match. -/
lemma findSg_eq (conn : Ec2SgConn) (group cidr : String) (s e : Int)
    (egress : Bool) (g : SecurityGroup)
    (hconn : conn.describeSecurityGroups = .ok [g])
    (hwf : ∀ p ∈ sgDir egress g, sgPermWf p) :
    FindPreExistingSecurityGroupRule conn group cidr s e egress =
      ([ApiCall.describeSecurityGroups group],
       .ok ((sgDir egress g).any (sgMatchB cidr s e), none)) := by
  have hl := sgPermLoop_eq cidr s e (sgDir egress g) hwf
  simp only [FindPreExistingSecurityGroupRule, hconn, sgDir] at *
  cases egress <;> simp_all

/-- The network-ACL match loop computes `naclFindNum`, provided every
entry carries the fields the loop may dereference. -/
lemma naclMatchLoop_eq (cidr : String) (s e : Int) (eg : Bool)
    (entries : List NetworkAclEntry)
    (hwf : ∀ en ∈ entries, naclEntryWf en) :
    naclMatchLoop cidr s e eg entries =
      .ok (naclFindNum cidr s e eg entries) := by
  induction entries with
  | nil => simp [naclMatchLoop, naclFindNum]
  | cons v rest ih =>
    obtain ⟨hc0, ⟨pr, hpr, hf0, ht0⟩, he0, hn0⟩ := hwf v (List.mem_cons_self v rest)
    have hrest : ∀ en ∈ rest, naclEntryWf en :=
      fun en hen => hwf en (List.mem_cons_of_mem v hen)
    obtain ⟨c, hc⟩ := Option.ne_none_iff_exists'.mp hc0
    obtain ⟨f, hfv⟩ := Option.ne_none_iff_exists'.mp hf0
    obtain ⟨t, htv⟩ := Option.ne_none_iff_exists'.mp ht0
    obtain ⟨b, hb⟩ := Option.ne_none_iff_exists'.mp he0
    obtain ⟨m, hm⟩ := Option.ne_none_iff_exists'.mp hn0
    by_cases hcc : c = cidr
    · by_cases hfs : f = s
      · by_cases hte : t = e
        · by_cases hbe : b = eg
          · subst hcc hfs hte hbe
            simp [naclMatchLoop, naclFindNum, List.find?_cons, naclMatchB,
                  hc, hpr, hfv, htv, hb, hm]
          · subst hcc hfs hte
            simp [naclMatchLoop, naclFindNum, List.find?_cons, naclMatchB,
                  hc, hpr, hfv, htv, hb, hbe, ih hrest]
        · subst hcc hfs
          simp [naclMatchLoop, naclFindNum, List.find?_cons, naclMatchB,
                hc, hpr, hfv, htv, hte, ih hrest]
      · subst hcc
        simp [naclMatchLoop, naclFindNum, List.find?_cons, naclMatchB,
              hc, hpr, hfv, hfs, ih hrest]
    · simp [naclMatchLoop, naclFindNum, List.find?_cons, naclMatchB,
            hc, hcc, ih hrest]

/-- Boolean and propositional entry matching agree. -/
lemma naclMatchB_iff (cidr : String) (s e : Int) (eg : Bool)
    (en : NetworkAclEntry) :
    naclMatchB cidr s e eg en = true ↔ naclEntryMatches cidr s e eg en := by
  cases hpr : en.portRange with
  | none => simp [naclMatchB, naclEntryMatches, hpr]
  | some pr => simp [naclMatchB, naclEntryMatches, hpr, and_assoc]

/-- FindPreExistingNetworkACLRule, on a single well-formed ACL, issues
exactly the describe call and reports `naclFindNum`. -/
lemma findNacl_eq (conn : Ec2NaclConn) (acl cidr : String) (s e : Int)
    (eg : Bool) (a : NetworkAcl)
    (hconn : conn.describeNetworkAcls = .ok [a])
    (hwf : ∀ en ∈ a.entries, naclEntryWf en) :
    FindPreExistingNetworkACLRule conn acl cidr s e eg =
      ([ApiCall.describeNetworkAcls acl],
       .ok (naclFindNum cidr s e eg a.entries, none)) := by
  have hl := naclMatchLoop_eq cidr s e eg a.entries hwf
  simp [FindPreExistingNetworkACLRule, hconn, hl]

/-! ## Claims -/

/-- Claim C1: for every rule (security-group or network-ACL) whose
PreExisting flag is true, the delete operation (DeleteSecurityGroupRule /
DeleteNetworkACLRule) issues no revoke or delete call to the cloud API
and returns a nil error. -/
theorem c1_preexisting_delete_issues_no_call
    (sgConn : Ec2SgConn) (naclConn : Ec2NaclConn)
    (sgRule : SecurityGroupRule) (naclRule : NetworkACLRule)
    (hsg : sgRule.preExisting = true) (hnacl : naclRule.preExisting = true) :
    runSecurityGroupRuleDelete sgConn sgRule = ([], none) ∧
    (DeleteSecurityGroupRule sgConn sgRule).1 = [] ∧
    (DeleteSecurityGroupRule sgConn sgRule).2.2 = none ∧
    runNetworkACLRuleDelete naclConn naclRule = ([], none) ∧
    (DeleteNetworkACLRule naclConn naclRule).1 = [] ∧
    (DeleteNetworkACLRule naclConn naclRule).2.2 = none := by
  simp [runSecurityGroupRuleDelete, DeleteSecurityGroupRule,
        runNetworkACLRuleDelete, DeleteNetworkACLRule, hsg, hnacl]

/-- Witness for C1 at concrete pre-existing rules and a concrete backend. -/
theorem c1_preexisting_delete_issues_no_call_witness :
    runSecurityGroupRuleDelete emptySgConn preSgRule = ([], none) ∧
    (DeleteSecurityGroupRule emptySgConn preSgRule).1 = [] ∧
    (DeleteSecurityGroupRule emptySgConn preSgRule).2.2 = none ∧
    runNetworkACLRuleDelete emptyNaclConn preNaclRule = ([], none) ∧
    (DeleteNetworkACLRule emptyNaclConn preNaclRule).1 = [] ∧
    (DeleteNetworkACLRule emptyNaclConn preNaclRule).2.2 = none :=
  c1_preexisting_delete_issues_no_call emptySgConn emptyNaclConn
    preSgRule preNaclRule (by decide) (by decide)

/-- Counterexample to claim C5: the caller provides a pre-existing rule
with Created = true, yet DeleteSecurityGroupRule hands back Created =
false — Created is *not* left as the caller provided. -/
theorem c5_counterexample_created_forced_false :
    preSgRule.preExisting = true ∧ preSgRule.created = true ∧
    (DeleteSecurityGroupRule emptySgConn preSgRule).2.1.created = false ∧
    preNaclRule.created = true ∧
    (DeleteNetworkACLRule emptyNaclConn preNaclRule).2.1.created = false := by
  decide

/-- Claim C5 as amended: deleting a pre-existing rule issues no API call
and returns a nil error, but the returned rule object has its Created
field unconditionally set to false (all other fields unchanged) — it is
not left at the caller-provided value. -/
theorem c5_amended_preexisting_delete_clears_created
    (sgConn : Ec2SgConn) (naclConn : Ec2NaclConn)
    (sgRule : SecurityGroupRule) (naclRule : NetworkACLRule)
    (hsg : sgRule.preExisting = true) (hnacl : naclRule.preExisting = true) :
    DeleteSecurityGroupRule sgConn sgRule =
      ([], ({ sgRule with created := false }, none)) ∧
    DeleteNetworkACLRule naclConn naclRule =
      ([], ({ naclRule with created := false }, none)) := by
  simp [DeleteSecurityGroupRule, runSecurityGroupRuleDelete,
        DeleteNetworkACLRule, runNetworkACLRuleDelete, hsg, hnacl]

/-- Witness for the amended C5 at concrete rules. -/
theorem c5_amended_preexisting_delete_clears_created_witness :
    DeleteSecurityGroupRule emptySgConn preSgRule =
      ([], ({ preSgRule with created := false }, none)) ∧
    DeleteNetworkACLRule emptyNaclConn preNaclRule =
      ([], ({ preNaclRule with created := false }, none)) :=
  c5_amended_preexisting_delete_clears_created emptySgConn emptyNaclConn
    preSgRule preNaclRule (by decide) (by decide)

/-- Claim C2: the sort-and-scan allocator is claimed to return the
smallest non-negative integer not occupied.  The three quoted cases hold
(occupied 0,1,2,100 yields 3; empty yields 0; 1,2 yields 0), but
the scan miscounts duplicated rule numbers, which legitimately occur
because ingress and egress entries number independently: with entries
numbered 0 (ingress), 0 (egress) and 1 (ingress), it returns 1 — a
number that is already occupied — although the smallest free number is
2.  This contradicts the code's own documentation ("the lowest rule
number available"), and the subsequent create-entry call would fail with
a duplicate-rule-number API error. -/
theorem c2_slot_allocator_eval :
    (FindVacantNetworkACLRule (naclConnOf
        [naclEntry "10.0.0.0/24" false 22 22 0,
         naclEntry "10.0.0.0/24" true 1024 65535 0,
         naclEntry "10.0.1.0/24" false 22 22 1]) "acl-1").2 = .ok (1, none) ∧
    ([naclEntry "10.0.0.0/24" false 22 22 0,
      naclEntry "10.0.0.0/24" true 1024 65535 0,
      naclEntry "10.0.1.0/24" false 22 22 1].any
        (fun en => en.ruleNumber == some 1) = true) ∧
    ([naclEntry "10.0.0.0/24" false 22 22 0,
      naclEntry "10.0.0.0/24" true 1024 65535 0,
      naclEntry "10.0.1.0/24" false 22 22 1].all
        (fun en => en.ruleNumber != some 2) = true) ∧
    (FindVacantNetworkACLRule (naclConnOf
        [naclEntry "a" false 22 22 0, naclEntry "b" false 22 22 1,
         naclEntry "c" false 22 22 2, naclEntry "d" false 22 22 100])
      "acl-1").2 = .ok (3, none) ∧
    (FindVacantNetworkACLRule emptyNaclConn "acl-1").2 = .ok (0, none) ∧
    (FindVacantNetworkACLRule (naclConnOf
        [naclEntry "a" false 22 22 1, naclEntry "b" false 22 22 2])
      "acl-1").2 = .ok (0, none) ∧
    (CreateNetworkACLRule (naclConnOf
        [naclEntry "10.0.0.0/24" false 22 22 0,
         naclEntry "10.0.0.0/24" true 1024 65535 0,
         naclEntry "10.0.1.0/24" false 22 22 1]) "acl-1" "192.168.0.0/24"
      443 443 false).1 =
      [ApiCall.describeNetworkAcls "acl-1", ApiCall.describeNetworkAcls "acl-1",
       ApiCall.createNetworkAclEntry "acl-1" "192.168.0.0/24" false "TCP"
         "allow" 443 443 1] := by
  decide

/-- The permission loop never reads the protocol field. -/
lemma sgPermLoop_protocol_invariant (f : Option String → Option String)
    (cidr : String) (s e : Int) (perms : List IpPermission) :
    sgPermLoop cidr s e (perms.map (mapPermProtocol f)) =
      sgPermLoop cidr s e perms := by
  induction perms with
  | nil => rfl
  | cons p rest ih => simp [sgPermLoop, mapPermProtocol, ih]

/-- Claim C3: the rule matcher reports a match iff some existing rule in
the requested direction has a byte-identical CIDR and port bounds exactly
equal to the request; overlap is not a match.  Stated for both the
security-group matcher (boolean result) and the network-ACL matcher
(rule number result, -1 for no match), on well-formed single-resource
describe responses with non-negative ACL rule numbers. -/
theorem c3_rule_matcher_exact_equality :
    (∀ (conn : Ec2SgConn) (group cidr : String) (s e : Int) (egress : Bool)
        (g : SecurityGroup),
      conn.describeSecurityGroups = .ok [g] →
      (∀ p ∈ sgDir egress g, sgPermWf p) →
      (((FindPreExistingSecurityGroupRule conn group cidr s e egress).2 =
          .ok (true, none)) ↔ ∃ p ∈ sgDir egress g, sgPermMatches cidr s e p) ∧
      (((FindPreExistingSecurityGroupRule conn group cidr s e egress).2 =
          .ok (false, none)) ↔
        ¬ ∃ p ∈ sgDir egress g, sgPermMatches cidr s e p)) ∧
    (∀ (conn : Ec2NaclConn) (acl cidr : String) (s e : Int) (eg : Bool)
        (a : NetworkAcl),
      conn.describeNetworkAcls = .ok [a] →
      (∀ en ∈ a.entries, naclEntryWf en) →
      (∀ en ∈ a.entries, ∀ n, en.ruleNumber = some n → 0 ≤ n) →
      (((FindPreExistingNetworkACLRule conn acl cidr s e eg).2 =
          .ok (-1, none)) ↔
        ¬ ∃ en ∈ a.entries, naclEntryMatches cidr s e eg en) ∧
      (∀ n : Int, (FindPreExistingNetworkACLRule conn acl cidr s e eg).2 =
          .ok (n, none) → n ≠ -1 →
        ∃ en ∈ a.entries, naclEntryMatches cidr s e eg en ∧
          en.ruleNumber = some n)) := by
  constructor
  · intro conn group cidr s e egress g hconn hwf
    rw [findSg_eq conn group cidr s e egress g hconn hwf]
    constructor
    · constructor
      · intro h
        have hb : (sgDir egress g).any (sgMatchB cidr s e) = true := by
          simpa using h
        obtain ⟨p, hp, hm⟩ := List.any_eq_true.mp hb
        exact ⟨p, hp, (sgMatchB_iff cidr s e p).mp hm⟩
      · rintro ⟨p, hp, hm⟩
        have hb : (sgDir egress g).any (sgMatchB cidr s e) = true :=
          List.any_eq_true.mpr ⟨p, hp, (sgMatchB_iff cidr s e p).mpr hm⟩
        simp [hb]
    · constructor
      · rintro h ⟨p, hp, hm⟩
        have hb : (sgDir egress g).any (sgMatchB cidr s e) = true :=
          List.any_eq_true.mpr ⟨p, hp, (sgMatchB_iff cidr s e p).mpr hm⟩
        simp [hb] at h
      · intro h
        have hb : (sgDir egress g).any (sgMatchB cidr s e) = false := by
          rw [List.any_eq_false]
          intro p hp hm
          exact h ⟨p, hp, (sgMatchB_iff cidr s e p).mp hm⟩
        simp [hb]
  · intro conn acl cidr s e eg a hconn hwf hnn
    rw [findNacl_eq conn acl cidr s e eg a hconn hwf]
    cases hfind : a.entries.find? (naclMatchB cidr s e eg) with
    | none =>
      have hnone := List.find?_eq_none.mp hfind
      constructor
      · constructor
        · rintro _ ⟨en, hen, hmat⟩
          exact hnone en hen ((naclMatchB_iff cidr s e eg en).mpr hmat)
        · intro _
          simp [naclFindNum, hfind]
      · intro n hok hne
        have h1 : naclFindNum cidr s e eg a.entries = n := by simpa using hok
        rw [naclFindNum, hfind] at h1
        exact absurd h1.symm hne
    | some en =>
      have hmem := List.mem_of_find?_eq_some hfind
      have hmatB := List.find?_some hfind
      have hmatP := (naclMatchB_iff cidr s e eg en).mp hmatB
      obtain ⟨m, hm⟩ := Option.ne_none_iff_exists'.mp (hwf en hmem).2.2.2
      have hmn : (0 : Int) ≤ m := hnn en hmem m hm
      have hgetd : naclFindNum cidr s e eg a.entries = m := by
        simp [naclFindNum, hfind, hm]
      constructor
      · constructor
        · intro h
          have h1 : m = -1 := by simpa [hgetd] using h
          omega
        · intro h
          exact absurd ⟨en, hmem, hmatP⟩ h
      · intro n hok hne
        have h1 : m = n := by simpa [hgetd] using hok
        exact ⟨en, hmem, hmatP, by rw [hm, h1]⟩

/-- Witness for C3: on the post-create group, the half-overlapping
request 20-25 does not match the existing 22-22 rule, while the exact
request does; on the fixture ACL, an exactly matching entry makes the
result differ from -1. -/
theorem c3_rule_matcher_exact_equality_witness :
    (FindPreExistingSecurityGroupRule (sgConnOf postCreateGroup) "sg-123456"
        "10.0.0.0/24" 20 25 false).2 = .ok (false, none) ∧
    (FindPreExistingSecurityGroupRule (sgConnOf postCreateGroup) "sg-123456"
        "10.0.0.0/24" 22 22 false).2 = .ok (true, none) ∧
    ¬ ((FindPreExistingNetworkACLRule
          (naclConnOf [naclEntry "10.0.0.0/24" false 22 22 100])
          "nacl-123456" "10.0.0.0/24" 22 22 false).2 = .ok (-1, none)) := by
  refine ⟨?_, ?_, ?_⟩
  · exact ((c3_rule_matcher_exact_equality.1 (sgConnOf postCreateGroup)
      "sg-123456" "10.0.0.0/24" 20 25 false postCreateGroup rfl
      (by decide)).2).mpr (by decide)
  · exact ((c3_rule_matcher_exact_equality.1 (sgConnOf postCreateGroup)
      "sg-123456" "10.0.0.0/24" 22 22 false postCreateGroup rfl
      (by decide)).1).mpr (by decide)
  · intro h
    exact ((c3_rule_matcher_exact_equality.2
      (naclConnOf [naclEntry "10.0.0.0/24" false 22 22 100]) "nacl-123456"
      "10.0.0.0/24" 22 22 false ⟨[naclEntry "10.0.0.0/24" false 22 22 100]⟩
      rfl (by decide) (by decide)).1.mp h) (by decide)

/-- Claim C4: whenever the security group already contains an exactly
matching rule (in particular right after a successful Create with the
same arguments), CreateSecurityGroupRule returns PreExisting = true and
Created = true and issues only the describe call — no authorize call. -/
theorem c4_create_on_existing_match_no_mutation
    (conn : Ec2SgConn) (group cidr : String) (s e : Int) (egress : Bool)
    (g : SecurityGroup)
    (hconn : conn.describeSecurityGroups = .ok [g])
    (hwf : ∀ p ∈ sgDir egress g, sgPermWf p)
    (hmatch : ∃ p ∈ sgDir egress g, sgPermMatches cidr s e p) :
    CreateSecurityGroupRule conn group cidr s e egress =
      ([ApiCall.describeSecurityGroups group],
       .ok ({ cidrBlock := cidr, created := true, egress := egress,
              groupID := group, startPort := s, endPort := e,
              preExisting := true }, none)) := by
  obtain ⟨p, hp, hm⟩ := hmatch
  have hb : (sgDir egress g).any (sgMatchB cidr s e) = true :=
    List.any_eq_true.mpr ⟨p, hp, (sgMatchB_iff cidr s e p).mpr hm⟩
  have hfind := findSg_eq conn group cidr s e egress g hconn hwf
  simp [CreateSecurityGroupRule, hfind, hb]

/-- Witness for C4: the state right after a successful ingress Create for
10.0.0.0/24 ports 22-22, re-created with identical arguments. -/
theorem c4_create_on_existing_match_no_mutation_witness :
    CreateSecurityGroupRule (sgConnOf postCreateGroup) "sg-123456"
        "10.0.0.0/24" 22 22 false =
      ([ApiCall.describeSecurityGroups "sg-123456"],
       .ok ({ cidrBlock := "10.0.0.0/24", created := true, egress := false,
              groupID := "sg-123456", startPort := 22, endPort := 22,
              preExisting := true }, none)) :=
  c4_create_on_existing_match_no_mutation (sgConnOf postCreateGroup)
    "sg-123456" "10.0.0.0/24" 22 22 false postCreateGroup rfl (by decide)
    ⟨tcpPerm "10.0.0.0/24" 22 22, by decide, by decide⟩

/-- Claim C10: security-group matching never reads the protocol of
existing permissions: replacing every permission's protocol leaves the
matcher's behaviour unchanged, and a permission matching on CIDR and
exact ports makes Create return PreExisting = true with no authorize
call, with no assumption at all about that permission's protocol. -/
theorem c10_matcher_ignores_protocol :
    (∀ (f : Option String → Option String) (conn : Ec2SgConn)
        (group cidr : String) (s e : Int) (eg : Bool),
      FindPreExistingSecurityGroupRule (mapConnProtocols f conn) group cidr
          s e eg =
        FindPreExistingSecurityGroupRule conn group cidr s e eg) ∧
    (∀ (conn : Ec2SgConn) (group cidr : String) (s e : Int) (eg : Bool)
        (g : SecurityGroup) (p : IpPermission),
      conn.describeSecurityGroups = .ok [g] →
      (∀ q ∈ sgDir eg g, sgPermWf q) →
      p ∈ sgDir eg g → sgPermMatches cidr s e p →
      (FindPreExistingSecurityGroupRule conn group cidr s e eg).2 =
        .ok (true, none) ∧
      CreateSecurityGroupRule conn group cidr s e eg =
        ([ApiCall.describeSecurityGroups group],
         .ok ({ cidrBlock := cidr, created := true, egress := eg,
                groupID := group, startPort := s, endPort := e,
                preExisting := true }, none))) := by
  constructor
  · intro f conn group cidr s e eg
    cases hd : conn.describeSecurityGroups with
    | error msg =>
      simp [FindPreExistingSecurityGroupRule, mapConnProtocols, hd]
    | ok gs =>
      match gs with
      | [] => simp [FindPreExistingSecurityGroupRule, mapConnProtocols, hd]
      | [g] =>
        cases eg <;>
          simp [FindPreExistingSecurityGroupRule, mapConnProtocols, hd,
                mapSgProtocols, sgPermLoop_protocol_invariant]
      | g1 :: g2 :: rest =>
        simp [FindPreExistingSecurityGroupRule, mapConnProtocols, hd]
  · intro conn group cidr s e eg g p hconn hwf hp hm
    have hb : (sgDir eg g).any (sgMatchB cidr s e) = true :=
      List.any_eq_true.mpr ⟨p, hp, (sgMatchB_iff cidr s e p).mpr hm⟩
    have hfind := findSg_eq conn group cidr s e eg g hconn hwf
    constructor
    · rw [hfind]
      simp [hb]
    · simp [CreateSecurityGroupRule, hfind, hb]

/-- Witness for C10: the only existing permission is a udp one with the
requested CIDR and ports; the matcher still reports a match and Create
performs no authorize call. -/
theorem c10_matcher_ignores_protocol_witness :
    FindPreExistingSecurityGroupRule
        (mapConnProtocols (fun _ => some "icmp") (sgConnOf udpGroup))
        "sg-123456" "10.0.0.0/24" 22 22 false =
      FindPreExistingSecurityGroupRule (sgConnOf udpGroup) "sg-123456"
        "10.0.0.0/24" 22 22 false ∧
    (FindPreExistingSecurityGroupRule (sgConnOf udpGroup) "sg-123456"
        "10.0.0.0/24" 22 22 false).2 = .ok (true, none) ∧
    CreateSecurityGroupRule (sgConnOf udpGroup) "sg-123456" "10.0.0.0/24"
        22 22 false =
      ([ApiCall.describeSecurityGroups "sg-123456"],
       .ok ({ cidrBlock := "10.0.0.0/24", created := true, egress := false,
              groupID := "sg-123456", startPort := 22, endPort := 22,
              preExisting := true }, none)) := by
  refine ⟨?_, ?_⟩
  · exact c10_matcher_ignores_protocol.1 (fun _ => some "icmp")
      (sgConnOf udpGroup) "sg-123456" "10.0.0.0/24" 22 22 false
  · exact c10_matcher_ignores_protocol.2 (sgConnOf udpGroup) "sg-123456"
      "10.0.0.0/24" 22 22 false udpGroup udpPerm rfl (by decide) (by decide)
      (by decide)

/-- Counterexample to claim C9 as stated: an ACL *containing* an entry
without a port range does not necessarily hit a nil dereference — the
conjunction short-circuits, so the port bounds are only dereferenced
when the entry's CIDR equals the request.  Here the all-protocols
0.0.0.0/0 entry has no port range, yet the matcher returns -1 normally. -/
theorem c9_counterexample_missing_ports_skipped :
    allProtoDenyEntry.portRange = none ∧
    (FindPreExistingNetworkACLRule (naclConnOf [allProtoDenyEntry])
        "nacl-123456" "10.0.0.0/24" 22 22 false).2 = .ok (-1, none) := by
  decide

/-- Claim C9 as amended: the matcher dereferences each reached entry's
CIDR unconditionally and its port-range bounds only when the CIDR
matches the request; an entry with matching CIDR and no port range is a
nil dereference (panic), not a returned error; and when every entry
carries CIDR, port range, direction and rule number, no panic can
occur. -/
theorem c9_matcher_total_under_wellformed_entries :
    (∀ (conn : Ec2NaclConn) (acl cidr : String) (s e : Int) (eg : Bool)
        (a : NetworkAcl),
      conn.describeNetworkAcls = .ok [a] →
      (∀ en ∈ a.entries, naclEntryWf en) →
      (FindPreExistingNetworkACLRule conn acl cidr s e eg).2 ≠ .panicked) ∧
    (FindPreExistingNetworkACLRule (naclConnOf [allProtoMatchingEntry])
        "nacl-123456" "10.0.0.0/24" 22 22 false).2 = .panicked := by
  constructor
  · intro conn acl cidr s e eg a hconn hwf
    rw [findNacl_eq conn acl cidr s e eg a hconn hwf]
    simp
  · decide

/-- Witness for C9's amended totality on a fully populated fixture ACL. -/
theorem c9_matcher_total_under_wellformed_entries_witness :
    (FindPreExistingNetworkACLRule
        (naclConnOf [naclEntry "172.16.0.0/24" false 22 22 0,
                     naclEntry "10.0.0.0/24" false 22 22 100])
        "nacl-123456" "10.0.0.0/24" 22 22 false).2 ≠ .panicked ∧
    (FindPreExistingNetworkACLRule (naclConnOf [allProtoMatchingEntry])
        "nacl-123456" "10.0.0.0/24" 22 22 false).2 = .panicked :=
  ⟨c9_matcher_total_under_wellformed_entries.1
      (naclConnOf [naclEntry "172.16.0.0/24" false 22 22 0,
                   naclEntry "10.0.0.0/24" false 22 22 100])
      "nacl-123456" "10.0.0.0/24" 22 22 false
      ⟨[naclEntry "172.16.0.0/24" false 22 22 0,
        naclEntry "10.0.0.0/24" false 22 22 100]⟩ rfl (by decide),
    c9_matcher_total_under_wellformed_entries.2⟩

/-- In an `imageLE`-sorted list the last element bounds every element. -/
lemma sorted_le_getLast (l : List Image) (hs : l.Sorted imageLE)
    (hne : l ≠ []) : ∀ o ∈ l, imageLE o (l.getLast hne) := by
  induction l with
  | nil => exact absurd rfl hne
  | cons a t ih =>
    intro o ho
    cases t with
    | nil =>
      have : o = a := by simpa using ho
      subst this
      exact Int.le_refl _
    | cons b t2 =>
      have hne2 : b :: t2 ≠ [] := by simp
      rw [List.getLast_cons hne2]
      rcases List.mem_cons.mp ho with h | h
      · subst h
        exact (List.sorted_cons.mp hs).1 _ (List.getLast_mem hne2)
      · exact ih (List.sorted_cons.mp hs).2 hne2 o h

/-- `goSortImages` meets the `sort.Sort` contract. -/
lemma goSortImages_sortSpec : SortSpec goSortImages :=
  fun l => ⟨List.perm_insertionSort imageLE l, List.sorted_insertionSort imageLE l⟩

/-- Counterexample to claim C6 as stated: of two images half a second
apart, the one with the strictly later parsed RFC3339 timestamp
(…00.5Z, listed first) is *not* returned — `Less` compares `Unix()`
seconds only, 0.5 s truncates away, and the stable small-slice sort
leaves the earlier whole-second image (listed last) in last place. -/
theorem c6_counterexample_subsecond_truncation :
    parseRFC3339 imgHalfSecond.creationDate = some (1451606400, 500000000) ∧
    parseRFC3339 imgWholeSecond.creationDate = some (1451606400, 0) ∧
    mostRecentAmi goSortImages [imgHalfSecond, imgWholeSecond] =
      .ok imgWholeSecond ∧
    imgWholeSecond ≠ imgHalfSecond := by
  refine ⟨by decide, by decide, by decide, by decide⟩

/-- Claim C6 as amended: for every sort routine meeting the `sort.Sort`
contract and every non-empty candidate list, mostRecentAmi returns an
element of the list whose creation timestamp is maximal when timestamps
are compared by their whole Unix second (unparseable dates counting as
the zero time, not failing); which image among those tied on the same
second is returned depends on the sort and is not specified.  For an
empty catalog, LocateImage fails with the not-found error. -/
theorem c6_amended_most_recent_by_unix_second :
    (∀ (sortImpl : List Image → List Image), SortSpec sortImpl →
      ∀ images : List Image, images ≠ [] →
      ∃ img, mostRecentAmi sortImpl images = .ok img ∧ img ∈ images ∧
        ∀ o ∈ images, imageKey o ≤ imageKey img) ∧
    (∀ (sortImpl : List Image → List Image) (conn : Ec2ImageConn),
      conn.describeImages = .ok [] →
      LocateImage sortImpl conn =
        .ok ("", some "No default image found. You may need to update bastion.")) := by
  constructor
  · intro sortImpl hspec images hne
    obtain ⟨hperm, hsort⟩ := hspec images
    have hne' : sortImpl images ≠ [] := by
      intro h0
      rw [h0] at hperm
      exact hne hperm.symm.eq_nil
    refine ⟨(sortImpl images).getLast hne', ?_, ?_, ?_⟩
    · simp [mostRecentAmi, List.getLast?_eq_getLast _ hne']
    · exact hperm.subset (List.getLast_mem hne')
    · intro o ho
      exact sorted_le_getLast _ hsort hne' o (hperm.mem_iff.mpr ho)
  · intro sortImpl conn h
    simp [LocateImage, h]

/-- Witness for the amended C6: a catalog with an unparseable date mixed
in still resolves, to the 2016 image; an empty catalog fails. -/
theorem c6_amended_most_recent_by_unix_second_witness :
    (∃ img, mostRecentAmi goSortImages demoImages = .ok img ∧
      img ∈ demoImages ∧ ∀ o ∈ demoImages, imageKey o ≤ imageKey img) ∧
    LocateImage goSortImages ⟨.ok []⟩ =
      .ok ("", some "No default image found. You may need to update bastion.") :=
  ⟨c6_amended_most_recent_by_unix_second.1 goSortImages goSortImages_sortSpec
      demoImages (by decide),
   c6_amended_most_recent_by_unix_second.2 goSortImages ⟨.ok []⟩ rfl⟩

/-- Counterexample to claim C7 as stated: the first poll answers with a
reservation containing zero instances; the loop terminates at once with
the "No instances were found." error even though the very next poll
would have reported the running instance well inside the window. -/
theorem c7_counterexample_zero_instances_aborts_poll :
    waitForInstanceStart zeroThenRunningSeq startTimeout 5 0 =
      .ok (none, some "No instances were found.") ∧
    zeroThenRunningSeq 1 = .ok [{ instances := [runningInst] }] ∧
    waitForInstanceStart (fun i => zeroThenRunningSeq (i + 1)) startTimeout
        5 0 = .ok (some runningInst, none) := by
  refine ⟨by decide, rfl, by decide⟩

/-- The poll loop reaches a "running" response at index `k` after `k`
single-instance non-running responses, given enough budget. -/
lemma wait_progress (seq : Nat → Except String (List Reservation))
    (timeout : Int) :
    ∀ (k fuel i : Nat) (inst : Ec2Instance),
      (∀ j, j < k → ∃ ej nmj, seq (i + j) = .ok [{ instances := [ej] }] ∧
        ej.state = some { name := some nmj } ∧ nmj ≠ "running") →
      seq (i + k) = .ok [{ instances := [inst] }] →
      inst.state = some { name := some "running" } →
      k < fuel →
      waitForInstanceStart seq timeout fuel i = .ok (some inst, none) := by
  intro k
  induction k with
  | zero =>
    intro fuel i inst _ hk hrun hfuel
    match fuel, hfuel with
    | f + 1, _ =>
      have h0 : seq i = .ok [{ instances := [inst] }] := by simpa using hk
      simp [waitForInstanceStart, h0, hrun]
  | succ k ih =>
    intro fuel i inst hpre hk hrun hfuel
    match fuel, hfuel with
    | f + 1, hf =>
      obtain ⟨e0, nm0, h0, hst0, hnm0⟩ := hpre 0 (Nat.succ_pos k)
      have h0' : seq i = .ok [{ instances := [e0] }] := by simpa using h0
      have step : waitForInstanceStart seq timeout (f + 1) i =
          waitForInstanceStart seq timeout f (i + 1) := by
        simp [waitForInstanceStart, h0', hst0, hnm0]
      rw [step]
      apply ih f (i + 1) inst
      · intro j hj
        obtain ⟨ej, nmj, hj1, hj2, hj3⟩ := hpre (j + 1) (Nat.succ_lt_succ hj)
        exact ⟨ej, nmj, by rwa [show i + 1 + j = i + (j + 1) by omega], hj2, hj3⟩
      · rwa [show i + 1 + k = i + (k + 1) by omega]
      · exact hrun
      · omega

/-- Claim C7 as amended: a zero-instance describe response terminates the
poll loop immediately with the "No instances were found." error (it is
not treated as transient); whereas a sequence of well-formed
single-instance non-running responses followed by a "running" response
within the budget does return the running instance. -/
theorem c7_amended_zero_instances_abort :
    (∀ (seq : Nat → Except String (List Reservation)) (timeout : Int)
        (fuel : Nat) (r : Reservation),
      0 < fuel → seq 0 = .ok [r] → r.instances = [] →
      waitForInstanceStart seq timeout fuel 0 =
        .ok (none, some "No instances were found.")) ∧
    (∀ (seq : Nat → Except String (List Reservation)) (timeout : Int)
        (fuel k : Nat) (inst : Ec2Instance),
      (∀ j, j < k → ∃ ej nmj, seq j = .ok [{ instances := [ej] }] ∧
        ej.state = some { name := some nmj } ∧ nmj ≠ "running") →
      seq k = .ok [{ instances := [inst] }] →
      inst.state = some { name := some "running" } →
      k < fuel →
      waitForInstanceStart seq timeout fuel 0 = .ok (some inst, none)) := by
  constructor
  · intro seq timeout fuel r hfuel h0 hr
    match fuel, hfuel with
    | f + 1, _ => simp [waitForInstanceStart, h0, hr]
  · intro seq timeout fuel k inst hpre hk hrun hfuel
    apply wait_progress seq timeout k fuel 0 inst
    · intro j hj
      simpa using hpre j hj
    · simpa using hk
    · exact hrun
    · exact hfuel

/-- Witness for the amended C7: a constant zero-instance backend aborts
with the error; a backend reporting "running" at once returns the
instance. -/
theorem c7_amended_zero_instances_abort_witness :
    waitForInstanceStart (fun _ => .ok [{ instances := [] }]) startTimeout
        3 0 = .ok (none, some "No instances were found.") ∧
    waitForInstanceStart alwaysRunningSeq startTimeout 3 0 =
      .ok (some runningInst, none) :=
  ⟨c7_amended_zero_instances_abort.1 (fun _ => .ok [{ instances := [] }])
      startTimeout 3 { instances := [] } (by decide) rfl rfl,
   c7_amended_zero_instances_abort.2 alwaysRunningSeq startTimeout 3 0
      runningInst (fun j hj => absurd hj (Nat.not_lt_zero j)) rfl rfl
      (by decide)⟩

/-- Claim C8: CreateInstance returns Created = false alongside every
non-nil error, and Created = true only on the nil-error path, on which
both addresses are copied from the instance the start poll returned. -/
theorem c8_create_instance_created_iff_success
    (sortImpl : List Image → List Image) (conn : Ec2InstanceConn)
    (subnet securityGroup : String) (kp : KeyPair) :
    (∀ (inst : Instance) (e : String),
      CreateInstance sortImpl conn subnet securityGroup kp =
        .ok (inst, some e) → inst.created = false) ∧
    (∀ inst : Instance,
      CreateInstance sortImpl conn subnet securityGroup kp =
        .ok (inst, none) →
      inst.created = true ∧
      ∃ di, waitForInstanceStart conn.describeInstances startTimeout
          conn.startPollBudget 0 = .ok (some di, none) ∧
        di.publicIpAddress = some inst.publicIPAddress ∧
        di.privateIpAddress = some inst.privateIPAddress) := by
  constructor
  · intro inst e h
    simp only [CreateInstance] at h
    repeat' split at h
    all_goals
      first
        | exact GoResult.noConfusion h
        | (simp only [GoResult.ok.injEq, Prod.mk.injEq] at h
           obtain ⟨h1, h2⟩ := h
           subst h1
           rfl)
        | simp at h
  · intro inst h
    simp only [CreateInstance] at h
    repeat' split at h
    all_goals try exact GoResult.noConfusion h
    all_goals
      try (simp only [GoResult.ok.injEq, Prod.mk.injEq] at h
           exact absurd h.2 (fun hh => Option.noConfusion hh))
    rename_i newInstOpt newInst heqWait x4 pub heqPub x3 x2 heqSSH x1 x0 iid3 priv heqIid heqPriv
    simp only [GoResult.ok.injEq, Prod.mk.injEq] at h
    obtain ⟨h1, -⟩ := h
    subst h1
    exact ⟨rfl, newInst, heqWait, heqPub, heqPriv⟩

/-- Witness for C8: a failed launch yields Created = false; the
all-success backend yields Created = true with both addresses copied
from the described instance. -/
theorem c8_create_instance_created_iff_success_witness :
    launchFailInstance.created = false ∧
    (happyInstance.created = true ∧
      ∃ di, waitForInstanceStart happyInstanceConn.describeInstances
          startTimeout happyInstanceConn.startPollBudget 0 =
        .ok (some di, none) ∧
        di.publicIpAddress = some happyInstance.publicIPAddress ∧
        di.privateIpAddress = some happyInstance.privateIPAddress) :=
  ⟨(c8_create_instance_created_iff_success goSortImages launchFailConn
      "subnet-123456" "sg-123456" testKp).1 launchFailInstance "api failure"
      (by decide),
   (c8_create_instance_created_iff_success goSortImages happyInstanceConn
      "subnet-123456" "sg-123456" testKp).2 happyInstance (by decide)⟩

end Bastion
